import Mathlib

/-!
Verification of the `go-cli-notes-web` dashboard server (`main.go`).

The program is a Fiber HTTP server that maps a fixed set of URL paths to
on-disk HTML files. We embed the request-handling pipeline shallowly:

* the filesystem is a function `FS : String → Option String` from a path
  (relative to the working directory) to its byte content, `none` meaning
  the file is missing or unreadable (`os.ReadFile` error);
* a response is a status code, a header association list (`c.Set`
  overwrites a header key) and a body: either raw text (`c.SendString`)
  or a JSON object (`c.JSON(fiber.Map{...})`), the latter modelled as its
  field list in the sorted key order that Go's `encoding/json` emits
  for a map;
* the middlewares that the claims concern are modelled from their
  configuration in `setupFiber`: `securityHeaders` as the fixed header
  writes, the limiter as a per-key fixed-window counter with
  `Max = 120`, `Expiration = 60` seconds; logger, recover, compress and
  cors do not alter status, body or the headers at issue and are
  modelled as the identity on those fields;
* routes are dispatched in the registration order of `setupRoutes`,
  with `app.Get` matching the `GET` method and `app.Use` (the catch-all)
  matching everything.
-/

namespace GoCliNotesWeb

/-- The package variable `version = "dev"` of `main.go`. -/
def version : String := "dev"

/-- The package variable `appName` of `main.go`. -/
def appName : String := "Knowledge Garden CLI - Web Dashboard"

/-- The filesystem as seen by `os.ReadFile`: path (relative to the working
directory) to content, `none` when the read fails. -/
abbrev FS := String → Option String

/-- A response body: raw text from `c.SendString`, or a JSON object from
`c.JSON(fiber.Map{...})` given by its fields in sorted key order. -/
inductive Body where
  | text (s : String)
  | json (fields : List (String × String))
  deriving DecidableEq, Repr

/-- An HTTP response: status, headers (as written by `c.Set`, last write
per key wins) and body. -/
structure Response where
  status : Nat
  headers : List (String × String)
  body : Body
  deriving DecidableEq, Repr

/-- An incoming request: method, path, client IP (`c.IP()`), query string
and request headers. The handlers in `main.go` never read the query or
the request headers. -/
structure Request where
  method : String
  path : String
  ip : String
  query : List (String × String)
  reqHeaders : List (String × String)
  deriving DecidableEq, Repr

/-- Fiber `c.Set(key, value)`: overwrite the header if present, append it
otherwise. -/
def setHeader (hs : List (String × String)) (k v : String) : List (String × String) :=
  if hs.any (fun p => p.1 = k) then
    hs.map (fun p => if p.1 = k then (k, v) else p)
  else
    hs ++ [(k, v)]

/-- Read a response header (first entry with the key). -/
def getHeader (hs : List (String × String)) (k : String) : Option String :=
  (hs.find? (fun p => p.1 = k)).map (fun p => p.2)

/-- The six headers written by the `securityHeaders` middleware
(`main.go` lines 94–102), in the order of the `c.Set` calls. -/
def securityHeadersSet : List (String × String) :=
  [("X-Content-Type-Options", "nosniff"),
   ("X-Frame-Options", "DENY"),
   ("X-XSS-Protection", "1; mode=block"),
   ("Referrer-Policy", "strict-origin-when-cross-origin"),
   ("Permissions-Policy", "default-src 'self'"),
   ("X-Application-Version", version)]

/-- The `securityHeaders` middleware: perform its `c.Set` calls on the
response headers accumulated so far, then `c.Next()`. -/
def securityHeaders (hs : List (String × String)) : List (String × String) :=
  securityHeadersSet.foldl (fun acc p => setHeader acc p.1 p.2) hs

/-- Fiber app configuration, as far as the claims need it: `fiber.Config`
in `setupFiber` sets `AppName` and `EnablePrintRoutes`. -/
structure AppConfig where
  appName : String
  enablePrintRoutes : Bool
  deriving DecidableEq, Repr

/-- Environment lookup `getEnv(key, defaultValue)` over `os.Getenv`: returns the
variable's value unless it is empty, in which case the default. The
environment is a total function to strings; an unset variable reads as
`""`, exactly as `os.Getenv` reports it. -/
def getEnv (environ : String → String) (key defaultValue : String) : String :=
  if environ key ≠ "" then environ key else defaultValue

/-- The configuration `setupFiber` builds:
`EnablePrintRoutes: getEnv("ENV", "development") == "development"`. -/
def setupFiber (environ : String → String) : AppConfig :=
  { appName := appName,
    enablePrintRoutes := getEnv environ "ENV" "development" = "development" }

/-- The port `main` listens on: `getEnv("PORT", "3000")`. -/
def mainPort (environ : String → String) : String :=
  getEnv environ "PORT" "3000"

/-- The `/health` handler: `c.JSON` sets the JSON content type and
serializes the `fiber.Map`, whose keys `encoding/json` emits sorted. -/
def healthHandler (cfg : AppConfig) (hs : List (String × String)) : Response :=
  { status := 200,
    headers := setHeader hs "Content-Type" "application/json",
    body := .json [("app", cfg.appName), ("status", "healthy"), ("version", version)] }

/-- An HTML page handler of `setupRoutes`: set the HTML content type,
`os.ReadFile` the template, 404 with `"Template not found"` on failure,
otherwise 200 with the file's bytes. -/
def htmlHandler (fs : FS) (hs : List (String × String)) (file : String) : Response :=
  let hs := setHeader hs "Content-Type" "text/html; charset=utf-8"
  match fs ("templates/" ++ file) with
  | some content => { status := 200, headers := hs, body := .text content }
  | none => { status := 404, headers := hs, body := .text "Template not found" }

/-- The catch-all `app.Use` handler at the end of `setupRoutes`: serve
`templates/404.html` with status 404, or the plain fallback text when
that file cannot be read. -/
def notFoundHandler (fs : FS) (hs : List (String × String)) : Response :=
  let hs := setHeader hs "Content-Type" "text/html; charset=utf-8"
  match fs "templates/404.html" with
  | some content => { status := 404, headers := hs, body := .text content }
  | none => { status := 404, headers := hs, body := .text "404 - Page Not Found" }

/-- Does the path fall under the `app.Static("/static", ...)` mount?
(The mount matches `/static` itself and every path beginning with
`/static/`; the prefix test is spelled on the character list so that it
evaluates by mere unfolding.) -/
def isStaticPath (p : String) : Bool :=
  p = "/static" || p.data.take 8 == "/static/".data

/-- The static file a `/static...` request maps to: the asset root
path-joined with the wildcard suffix. -/
def staticFile (fs : FS) (p : String) : Option String :=
  fs ("static" ++ p.drop 7)

/-- The four HTML page routes of `setupRoutes`, in registration order:
path and backing template file. -/
def htmlRoutes : List (String × String) :=
  [("/", "index.html"),
   ("/tutorial", "tutorial.html"),
   ("/tutorial/self-hosting", "tutorial-self-hosting.html"),
   ("/tutorial/cli-reference", "tutorial-cli-reference.html")]

/-- Route dispatch in the registration order of `setupRoutes`: `/health`,
the `/static` mount (falling through to the next handler when the asset
is missing), the four pages, then the catch-all. `app.Get` routes match
the `GET` method; the catch-all matches every method and path. -/
def setupRoutes (cfg : AppConfig) (fs : FS) (hs : List (String × String))
    (req : Request) : Response :=
  if req.method = "GET" ∧ req.path = "/health" then
    healthHandler cfg hs
  else if req.method = "GET" ∧ isStaticPath req.path then
    match staticFile fs req.path with
    | some content => { status := 200, headers := hs, body := .text content }
    | none => notFoundHandler fs hs
  else if req.method = "GET" ∧ req.path = "/" then
    htmlHandler fs hs "index.html"
  else if req.method = "GET" ∧ req.path = "/tutorial" then
    htmlHandler fs hs "tutorial.html"
  else if req.method = "GET" ∧ req.path = "/tutorial/self-hosting" then
    htmlHandler fs hs "tutorial-self-hosting.html"
  else if req.method = "GET" ∧ req.path = "/tutorial/cli-reference" then
    htmlHandler fs hs "tutorial-cli-reference.html"
  else
    notFoundHandler fs hs

/-- One key's bookkeeping in the limiter store: hits so far in the
current window, and when the window expires. -/
structure LimiterEntry where
  hits : Nat
  exp : Nat
  deriving DecidableEq, Repr

/-- The limiter's store: client key (IP) to its window entry. -/
abbrev LimiterState := String → Option LimiterEntry

/-- The limiter's store at process start: empty. -/
def initLimiter : LimiterState := fun _ => none

/-- One limiter decision for key `ip` at time `t` (seconds): fixed-window
counting per the `limiter.Config` of `setupFiber` (`Max: 120`,
`Expiration: 1 * time.Minute`). A fresh or expired window restarts the
count at 1 and allows; inside the window the hit count is incremented
(also for refused requests) and the request is allowed iff the new count
is within `Max`. -/
def limiterStep (st : LimiterState) (ip : String) (t : Nat) : Bool × LimiterState :=
  match st ip with
  | some e =>
    if t < e.exp then
      let hits := e.hits + 1
      (hits ≤ 120, fun k => if k = ip then some ⟨hits, e.exp⟩ else st k)
    else
      (true, fun k => if k = ip then some ⟨1, t + 60⟩ else st k)
  | none => (true, fun k => if k = ip then some ⟨1, t + 60⟩ else st k)

/-- The `LimitReached` response of the limiter configuration:
`c.Status(429).JSON(fiber.Map{"error": "Rate limit exceeded"})`. -/
def limitReachedResponse (hs : List (String × String)) : Response :=
  { status := 429,
    headers := setHeader hs "Content-Type" "application/json",
    body := .json [("error", "Rate limit exceeded")] }

/-- The whole per-request pipeline: the security headers are written,
then the limiter either refuses the request or lets the route dispatch
produce the response. Logger, recover, compress and cors leave the
modelled fields unchanged. Returns the response and the limiter store
after the request. -/
def handleRequest (cfg : AppConfig) (fs : FS) (st : LimiterState)
    (req : Request) (t : Nat) : Response × LimiterState :=
  let hs := securityHeaders []
  let (allowed, st') := limiterStep st req.ip t
  if allowed then (setupRoutes cfg fs hs req, st')
  else (limitReachedResponse hs, st')

/-- Run a sequence of timestamped requests through the server, threading
the limiter store; returns the responses in order and the final store. -/
def runRequests (cfg : AppConfig) (fs : FS) (st : LimiterState) :
    List (Request × Nat) → List Response × LimiterState
  | [] => ([], st)
  | (req, t) :: rest =>
    let (resp, st') := handleRequest cfg fs st req t
    let (resps, stf) := runRequests cfg fs st' rest
    (resp :: resps, stf)

/-- A Go error as `customErrorHandler` inspects it: either a
`*fiber.Error` carrying a status code, or any other error (only its
message is observable through `err.Error()`). -/
inductive GoError where
  | fiberErr (code : Nat) (message : String)
  | plainErr (message : String)
  deriving DecidableEq, Repr

/-- The message `err.Error()` of a Go error. -/
def errMessage : GoError → String
  | .fiberErr _ m => m
  | .plainErr m => m

/-- The status code `customErrorHandler` extracts: the fiber error's
code, or 500 for any other error. -/
def errCode : GoError → Nat
  | .fiberErr c _ => c
  | .plainErr _ => 500

/-- The `customErrorHandler` of `main.go` (lines 173-191): always sets the JSON
content type; a 404 code yields the fixed text `"404 - Page Not Found"`,
every other code yields `{"error": err.Error()}` with that status. -/
def customErrorHandler (hs : List (String × String)) (err : GoError) : Response :=
  let hs := setHeader hs "Content-Type" "application/json"
  if errCode err = 404 then
    { status := 404, headers := hs, body := .text "404 - Page Not Found" }
  else
    { status := errCode err, headers := hs, body := .json [("error", errMessage err)] }

/-! ## Helper lemmas about header manipulation -/

theorem getHeader_setHeader_self (hs : List (String × String)) (k v : String) :
    getHeader (setHeader hs k v) k = some v := by
  unfold setHeader getHeader
  by_cases h : hs.any (fun p => p.1 = k)
  · simp only [h, if_true]
    induction hs with
    | nil => simp at h
    | cons a tl ih =>
      by_cases ha : a.1 = k
      · simp [List.find?, ha]
      · simp only [List.any_cons, Bool.or_eq_true, decide_eq_true_eq] at h
        rcases h with h | h
        · exact absurd h ha
        · simpa [List.find?, ha] using ih (by simpa using h)
  · simp only [h, if_false]
    induction hs with
    | nil => simp [List.find?]
    | cons a tl ih =>
      simp only [List.any_cons, Bool.or_eq_true, decide_eq_true_eq, not_or] at h
      simpa [List.find?, h.1] using ih (by simpa using h.2)

theorem mem_setHeader_of_ne (hs : List (String × String)) (k v : String)
    (p : String × String) (hp : p ∈ hs) (hne : p.1 ≠ k) :
    p ∈ setHeader hs k v := by
  unfold setHeader
  by_cases h : hs.any (fun q => q.1 = k)
  · simp only [h, if_true]
    have : p = (fun q => if q.1 = k then (k, v) else q) p := by simp [hne]
    rw [this]
    exact List.mem_map_of_mem _ hp
  · simp only [h, if_false]
    exact List.mem_append_left _ hp

/-! ## Dispatch lemmas: the pipeline and the router reduced at concrete routes -/

theorem handleRequest_initLimiter (cfg : AppConfig) (fs : FS) (req : Request) (t : Nat) :
    (handleRequest cfg fs initLimiter req t).1 =
      setupRoutes cfg fs (securityHeaders []) req := rfl

theorem setupRoutes_health (cfg : AppConfig) (fs : FS) (hs : List (String × String))
    (ip : String) (q rh : List (String × String)) :
    setupRoutes cfg fs hs { method := "GET", path := "/health", ip := ip, query := q, reqHeaders := rh } =
      healthHandler cfg hs := rfl

theorem setupRoutes_root (cfg : AppConfig) (fs : FS) (hs : List (String × String))
    (ip : String) (q rh : List (String × String)) :
    setupRoutes cfg fs hs { method := "GET", path := "/", ip := ip, query := q, reqHeaders := rh } =
      htmlHandler fs hs "index.html" := rfl

theorem setupRoutes_tutorial (cfg : AppConfig) (fs : FS) (hs : List (String × String))
    (ip : String) (q rh : List (String × String)) :
    setupRoutes cfg fs hs { method := "GET", path := "/tutorial", ip := ip, query := q, reqHeaders := rh } =
      htmlHandler fs hs "tutorial.html" := rfl

theorem setupRoutes_selfHosting (cfg : AppConfig) (fs : FS) (hs : List (String × String))
    (ip : String) (q rh : List (String × String)) :
    setupRoutes cfg fs hs { method := "GET", path := "/tutorial/self-hosting", ip := ip, query := q, reqHeaders := rh } =
      htmlHandler fs hs "tutorial-self-hosting.html" := rfl

theorem setupRoutes_cliReference (cfg : AppConfig) (fs : FS) (hs : List (String × String))
    (ip : String) (q rh : List (String × String)) :
    setupRoutes cfg fs hs { method := "GET", path := "/tutorial/cli-reference", ip := ip, query := q, reqHeaders := rh } =
      htmlHandler fs hs "tutorial-cli-reference.html" := rfl

theorem htmlHandler_ok (fs : FS) (hs : List (String × String)) (file content : String)
    (h : fs ("templates/" ++ file) = some content) :
    htmlHandler fs hs file =
      { status := 200, headers := setHeader hs "Content-Type" "text/html; charset=utf-8",
        body := .text content } := by
  unfold htmlHandler
  rw [h]

theorem htmlHandler_missing (fs : FS) (hs : List (String × String)) (file : String)
    (h : fs ("templates/" ++ file) = none) :
    htmlHandler fs hs file =
      { status := 404, headers := setHeader hs "Content-Type" "text/html; charset=utf-8",
        body := .text "Template not found" } := by
  unfold htmlHandler
  rw [h]

/-! ## C1 -/

/-- C1: for each of the four HTML routes (`GET /`, `GET /tutorial`,
`GET /tutorial/self-hosting`, `GET /tutorial/cli-reference`), when the
backing template file is readable the response is status 200, the body
is exactly the file's byte content, and the content type is
`text/html; charset=utf-8`. The filesystem is an argument of the
handler and is consulted anew on every call, so the body always equals
the file's content at the time of that request — there is no cache. -/
theorem c1_html_routes_serve_file (environ : String → String) (fs : FS)
    (p f content ip : String) (t : Nat)
    (hroute : (p, f) ∈ htmlRoutes)
    (hfile : fs ("templates/" ++ f) = some content) :
    ((handleRequest (setupFiber environ) fs initLimiter
      { method := "GET", path := p, ip := ip, query := [], reqHeaders := [] } t).1.status = 200 ∧
     (handleRequest (setupFiber environ) fs initLimiter
      { method := "GET", path := p, ip := ip, query := [], reqHeaders := [] } t).1.body = .text content ∧
     getHeader (handleRequest (setupFiber environ) fs initLimiter
      { method := "GET", path := p, ip := ip, query := [], reqHeaders := [] } t).1.headers
        "Content-Type" = some "text/html; charset=utf-8") := by
  simp only [htmlRoutes, List.mem_cons, List.not_mem_nil, or_false, Prod.mk.injEq] at hroute
  rcases hroute with ⟨rfl, rfl⟩ | ⟨rfl, rfl⟩ | ⟨rfl, rfl⟩ | ⟨rfl, rfl⟩
  · rw [handleRequest_initLimiter, setupRoutes_root, htmlHandler_ok _ _ _ _ hfile]
    refine ⟨rfl, rfl, ?_⟩
    exact getHeader_setHeader_self (securityHeaders []) "Content-Type" "text/html; charset=utf-8"
  · rw [handleRequest_initLimiter, setupRoutes_tutorial, htmlHandler_ok _ _ _ _ hfile]
    refine ⟨rfl, rfl, ?_⟩
    exact getHeader_setHeader_self (securityHeaders []) "Content-Type" "text/html; charset=utf-8"
  · rw [handleRequest_initLimiter, setupRoutes_selfHosting, htmlHandler_ok _ _ _ _ hfile]
    refine ⟨rfl, rfl, ?_⟩
    exact getHeader_setHeader_self (securityHeaders []) "Content-Type" "text/html; charset=utf-8"
  · rw [handleRequest_initLimiter, setupRoutes_cliReference, htmlHandler_ok _ _ _ _ hfile]
    refine ⟨rfl, rfl, ?_⟩
    exact getHeader_setHeader_self (securityHeaders []) "Content-Type" "text/html; charset=utf-8"

/-- Witness for C1 at a concrete route and filesystem. -/
theorem c1_html_routes_serve_file_witness :
    ((handleRequest (setupFiber (fun _ => "")) (fun q => if q = "templates/index.html" then some "<html>OK</html>" else none) initLimiter
      { method := "GET", path := "/", ip := "1.2.3.4", query := [], reqHeaders := [] } 0).1.status = 200 ∧
     (handleRequest (setupFiber (fun _ => "")) (fun q => if q = "templates/index.html" then some "<html>OK</html>" else none) initLimiter
      { method := "GET", path := "/", ip := "1.2.3.4", query := [], reqHeaders := [] } 0).1.body = .text "<html>OK</html>" ∧
     getHeader (handleRequest (setupFiber (fun _ => "")) (fun q => if q = "templates/index.html" then some "<html>OK</html>" else none) initLimiter
      { method := "GET", path := "/", ip := "1.2.3.4", query := [], reqHeaders := [] } 0).1.headers
        "Content-Type" = some "text/html; charset=utf-8") :=
  c1_html_routes_serve_file (fun _ => "")
    (fun q => if q = "templates/index.html" then some "<html>OK</html>" else none)
    "/" "index.html" "<html>OK</html>" "1.2.3.4" 0 (by simp [htmlRoutes]) (by simp)

/-! ## C2 -/

/-- C2 counterexample: a 404-coded error reaching `customErrorHandler`
is answered with the fixed plain-text body `"404 - Page Not Found"`
under `Content-Type: application/json` — not with the custom not-found
document (the handler never reads any file) and not as an HTML page. -/
theorem c2_counterexample :
    (customErrorHandler [] (.fiberErr 404 "Not Found")).status = 404 ∧
    (customErrorHandler [] (.fiberErr 404 "Not Found")).body = .text "404 - Page Not Found" ∧
    getHeader (customErrorHandler [] (.fiberErr 404 "Not Found")).headers "Content-Type" =
      some "application/json" ∧
    getHeader (customErrorHandler [] (.fiberErr 404 "Not Found")).headers "Content-Type" ≠
      some "text/html; charset=utf-8" := by
  refine ⟨rfl, rfl, rfl, ?_⟩
  decide

/-- C2 (amended): for every error reaching `customErrorHandler`, the
content type is always `application/json`; an error carrying status 404
yields status 404 with the fixed plain-text body
`"404 - Page Not Found"` (not the custom not-found document); every
other error yields a JSON body `{"error": "<message>"}` with the
error's status code (500 when the error carries no code). -/
theorem c2_error_handler_amended (hs : List (String × String)) (err : GoError) :
    (customErrorHandler hs err).status = (if errCode err = 404 then 404 else errCode err) ∧
    getHeader (customErrorHandler hs err).headers "Content-Type" = some "application/json" ∧
    (customErrorHandler hs err).body =
      (if errCode err = 404 then .text "404 - Page Not Found"
       else .json [("error", errMessage err)]) := by
  unfold customErrorHandler
  by_cases h : errCode err = 404 <;>
    simp [h, getHeader_setHeader_self]

/-! ## C3 -/

/-- C3 counterexample: the `securityHeaders` middleware sets six fixed
headers, not seven; on a concrete request the response's headers are
exactly those six plus the handler's `Content-Type`. -/
theorem c3_counterexample :
    securityHeadersSet.length = 6 ∧
    (handleRequest (setupFiber (fun _ => "")) (fun _ => none) initLimiter
        { method := "GET", path := "/health", ip := "1.2.3.4", query := [], reqHeaders := [] }
        0).1.headers =
      securityHeadersSet ++ [("Content-Type", "application/json")] := by
  exact ⟨rfl, rfl⟩

theorem securityHeaders_nil : securityHeaders [] = securityHeadersSet := rfl

theorem mem_healthHandler_headers (cfg : AppConfig) (hs : List (String × String))
    (p : String × String) (hp : p ∈ hs) (hne : p.1 ≠ "Content-Type") :
    p ∈ (healthHandler cfg hs).headers :=
  mem_setHeader_of_ne hs "Content-Type" "application/json" p hp hne

theorem mem_htmlHandler_headers (fs : FS) (hs : List (String × String)) (file : String)
    (p : String × String) (hp : p ∈ hs) (hne : p.1 ≠ "Content-Type") :
    p ∈ (htmlHandler fs hs file).headers := by
  unfold htmlHandler
  cases fs ("templates/" ++ file) <;>
    exact mem_setHeader_of_ne hs "Content-Type" "text/html; charset=utf-8" p hp hne

theorem mem_notFoundHandler_headers (fs : FS) (hs : List (String × String))
    (p : String × String) (hp : p ∈ hs) (hne : p.1 ≠ "Content-Type") :
    p ∈ (notFoundHandler fs hs).headers := by
  unfold notFoundHandler
  cases fs "templates/404.html" <;>
    exact mem_setHeader_of_ne hs "Content-Type" "text/html; charset=utf-8" p hp hne

theorem mem_setupRoutes_headers (cfg : AppConfig) (fs : FS) (hs : List (String × String))
    (req : Request) (p : String × String) (hp : p ∈ hs) (hne : p.1 ≠ "Content-Type") :
    p ∈ (setupRoutes cfg fs hs req).headers := by
  unfold setupRoutes
  repeat' split
  all_goals first
    | exact mem_healthHandler_headers _ _ _ hp hne
    | exact mem_htmlHandler_headers _ _ _ _ hp hne
    | exact mem_notFoundHandler_headers _ _ _ hp hne
    | exact hp

theorem mem_handleRequest_headers (cfg : AppConfig) (fs : FS) (st : LimiterState)
    (req : Request) (t : Nat) (p : String × String)
    (hp : p ∈ securityHeadersSet) (hne : p.1 ≠ "Content-Type") :
    p ∈ (handleRequest cfg fs st req t).1.headers := by
  have hp' : p ∈ securityHeaders [] := by rw [securityHeaders_nil]; exact hp
  unfold handleRequest
  rcases hl : limiterStep st req.ip t with ⟨a, st'⟩
  cases a
  · simpa [hl] using mem_setHeader_of_ne _ "Content-Type" "application/json" p hp' hne
  · simpa [hl] using mem_setupRoutes_headers cfg fs _ req p hp' hne

/-- C3 (amended): every response — any route, any method, any limiter
state, success, not-found or rate-limited — carries the six fixed
security headers of the `securityHeaders` middleware with their exact
values. (The middleware sets six headers; the count of seven in the
claim is off by one.) -/
theorem c3_security_headers_amended (cfg : AppConfig) (fs : FS) (st : LimiterState)
    (req : Request) (t : Nat) :
    ("X-Content-Type-Options", "nosniff") ∈ (handleRequest cfg fs st req t).1.headers ∧
    ("X-Frame-Options", "DENY") ∈ (handleRequest cfg fs st req t).1.headers ∧
    ("X-XSS-Protection", "1; mode=block") ∈ (handleRequest cfg fs st req t).1.headers ∧
    ("Referrer-Policy", "strict-origin-when-cross-origin") ∈ (handleRequest cfg fs st req t).1.headers ∧
    ("Permissions-Policy", "default-src 'self'") ∈ (handleRequest cfg fs st req t).1.headers ∧
    ("X-Application-Version", version) ∈ (handleRequest cfg fs st req t).1.headers := by
  refine ⟨?_, ?_, ?_, ?_, ?_, ?_⟩ <;>
    exact mem_handleRequest_headers cfg fs st req t _ (by decide) (by decide)

/-! ## C7 -/

/-- C7: every `GET /health` request — whatever the query parameters and
request headers — is answered with status 200 and the JSON object
`{"status": "healthy", "version": version, "app": appName}` (three
string fields, `status` equal to `"healthy"`), under
`Content-Type: application/json`. -/
theorem c7_health_ok (environ : String → String) (fs : FS) (ip : String) (t : Nat)
    (q rh : List (String × String)) :
    ((handleRequest (setupFiber environ) fs initLimiter
        { method := "GET", path := "/health", ip := ip, query := q, reqHeaders := rh } t).1.status = 200 ∧
     (handleRequest (setupFiber environ) fs initLimiter
        { method := "GET", path := "/health", ip := ip, query := q, reqHeaders := rh } t).1.body =
       .json [("app", appName), ("status", "healthy"), ("version", version)] ∧
     getHeader (handleRequest (setupFiber environ) fs initLimiter
        { method := "GET", path := "/health", ip := ip, query := q, reqHeaders := rh } t).1.headers
       "Content-Type" = some "application/json") := by
  rw [handleRequest_initLimiter, setupRoutes_health]
  exact ⟨rfl, rfl, getHeader_setHeader_self (securityHeaders []) "Content-Type" "application/json"⟩

/-! ## C8 -/

/-- Overwrite one variable of an environment. -/
def setEnvVar (environ : String → String) (k v : String) : String → String :=
  fun k' => if k' = k then v else environ k'

theorem setupRoutes_config_only_appName (cfg₁ cfg₂ : AppConfig)
    (h : cfg₁.appName = cfg₂.appName) (fs : FS) (hs : List (String × String))
    (req : Request) :
    setupRoutes cfg₁ fs hs req = setupRoutes cfg₂ fs hs req := by
  unfold setupRoutes
  repeat' split
  all_goals first
    | rfl
    | (unfold healthHandler; rw [h])

/-- C8: the `ENV` variable never changes request handling. For any base
environment and any two values of `ENV`, the server configured from the
one environment answers every request, from every limiter state,
exactly as the server configured from the other — `ENV` reaches only
the `EnablePrintRoutes` startup diagnostic flag. -/
theorem c8_env_independent (base : String → String) (v₁ v₂ : String) (fs : FS)
    (st : LimiterState) (req : Request) (t : Nat) :
    handleRequest (setupFiber (setEnvVar base "ENV" v₁)) fs st req t =
      handleRequest (setupFiber (setEnvVar base "ENV" v₂)) fs st req t := by
  simp only [handleRequest]
  rw [setupRoutes_config_only_appName (setupFiber (setEnvVar base "ENV" v₁))
    (setupFiber (setEnvVar base "ENV" v₂)) rfl fs (securityHeaders []) req]

/-! ## C10 -/

/-- C10: `getEnv` treats a variable set to the empty string exactly as
an unset variable and returns the supplied default; in particular an
empty `PORT` makes `main` listen on port 3000 and an empty `ENV` is
treated as `development` (the route-printing flag is on). -/
theorem c10_getEnv_empty_default (environ : String → String) (key d : String)
    (h : environ key = "") :
    getEnv environ key d = d ∧
    (environ "PORT" = "" → mainPort environ = "3000") ∧
    (environ "ENV" = "" → (setupFiber environ).enablePrintRoutes = true) := by
  refine ⟨?_, ?_, ?_⟩
  · unfold getEnv
    rw [h]
    simp
  · intro hp
    unfold mainPort getEnv
    rw [hp]
    simp
  · intro he
    show decide (getEnv environ "ENV" "development" = "development") = true
    unfold getEnv
    rw [he]
    simp

/-- Witness for C10 at the everywhere-empty environment. -/
theorem c10_getEnv_empty_default_witness :
    getEnv (fun _ => "") "PORT" "3000" = "3000" ∧
    ((fun _ : String => "") "PORT" = "" → mainPort (fun _ => "") = "3000") ∧
    ((fun _ : String => "") "ENV" = "" → (setupFiber (fun _ => "")).enablePrintRoutes = true) :=
  c10_getEnv_empty_default (fun _ => "") "PORT" "3000" rfl

/-! ## Fallthrough to the catch-all -/

/-- The paths with a registered route in `setupRoutes`. -/
def routePaths : List String :=
  ["/health", "/", "/tutorial", "/tutorial/self-hosting", "/tutorial/cli-reference"]

theorem setupRoutes_fallthrough (cfg : AppConfig) (fs : FS) (hs : List (String × String))
    (req : Request) (hpath : req.path ∉ routePaths) (hstatic : isStaticPath req.path = false) :
    setupRoutes cfg fs hs req = notFoundHandler fs hs := by
  simp only [routePaths, List.mem_cons, List.not_mem_nil, or_false, not_or] at hpath
  obtain ⟨h1, h2, h3, h4, h5⟩ := hpath
  unfold setupRoutes
  rw [if_neg (fun hc => h1 hc.2),
      if_neg (fun hc => absurd hc.2 (by simp [hstatic])),
      if_neg (fun hc => h2 hc.2),
      if_neg (fun hc => h3 hc.2),
      if_neg (fun hc => h4 hc.2),
      if_neg (fun hc => h5 hc.2)]

theorem setupRoutes_non_get (cfg : AppConfig) (fs : FS) (hs : List (String × String))
    (req : Request) (hm : req.method ≠ "GET") :
    setupRoutes cfg fs hs req = notFoundHandler fs hs := by
  unfold setupRoutes
  rw [if_neg (fun hc => hm hc.1), if_neg (fun hc => hm hc.1), if_neg (fun hc => hm hc.1),
      if_neg (fun hc => hm hc.1), if_neg (fun hc => hm hc.1), if_neg (fun hc => hm hc.1)]

theorem notFoundHandler_ok (fs : FS) (hs : List (String × String)) (content : String)
    (h : fs "templates/404.html" = some content) :
    notFoundHandler fs hs =
      { status := 404, headers := setHeader hs "Content-Type" "text/html; charset=utf-8",
        body := .text content } := by
  unfold notFoundHandler
  rw [h]

theorem notFoundHandler_missing (fs : FS) (hs : List (String × String))
    (h : fs "templates/404.html" = none) :
    notFoundHandler fs hs =
      { status := 404, headers := setHeader hs "Content-Type" "text/html; charset=utf-8",
        body := .text "404 - Page Not Found" } := by
  unfold notFoundHandler
  rw [h]

/-! ## C5 -/

/-- C5: any request whose path has no registered route and is not under
the `/static` mount is answered by the catch-all: status 404, and the
body is the content of `templates/404.html` when that file is readable,
the plain fallback text `"404 - Page Not Found"` when it is not. -/
theorem c5_catch_all_404 (environ : String → String) (fs : FS) (req : Request) (t : Nat)
    (hpath : req.path ∉ routePaths) (hstatic : isStaticPath req.path = false) :
    ((handleRequest (setupFiber environ) fs initLimiter req t).1.status = 404 ∧
     (handleRequest (setupFiber environ) fs initLimiter req t).1.body =
       .text ((fs "templates/404.html").getD "404 - Page Not Found")) := by
  rw [handleRequest_initLimiter, setupRoutes_fallthrough _ _ _ _ hpath hstatic]
  cases h : fs "templates/404.html" with
  | none =>
    rw [notFoundHandler_missing fs _ h]
    exact ⟨rfl, rfl⟩
  | some c =>
    rw [notFoundHandler_ok fs _ c h]
    exact ⟨rfl, rfl⟩

/-- Witness for C5: an unrouted path with the 404 document present. -/
theorem c5_catch_all_404_witness :
    ((handleRequest (setupFiber (fun _ => ""))
        (fun q => if q = "templates/404.html" then some "<html>lost</html>" else none) initLimiter
        { method := "GET", path := "/nope", ip := "9.9.9.9", query := [], reqHeaders := [] } 0).1.status = 404 ∧
     (handleRequest (setupFiber (fun _ => ""))
        (fun q => if q = "templates/404.html" then some "<html>lost</html>" else none) initLimiter
        { method := "GET", path := "/nope", ip := "9.9.9.9", query := [], reqHeaders := [] } 0).1.body =
       .text "<html>lost</html>") :=
  c5_catch_all_404 (fun _ => "")
    (fun q => if q = "templates/404.html" then some "<html>lost</html>" else none)
    { method := "GET", path := "/nope", ip := "9.9.9.9", query := [], reqHeaders := [] } 0
    (by decide) (by decide)

/-! ## C6 -/

theorem htmlHandler_congr (fs₁ fs₂ : FS) (hs : List (String × String)) (file : String)
    (h : fs₁ ("templates/" ++ file) = fs₂ ("templates/" ++ file)) :
    htmlHandler fs₁ hs file = htmlHandler fs₂ hs file := by
  unfold htmlHandler
  rw [h]

/-- C6: when reading the template behind an HTML route fails — for any
reason, `os.ReadFile`'s error is never inspected — the route answers
404 with the minimal body `"Template not found"`; and the failure is
local: any other HTML route's response is a function of its own
template file alone, so two filesystems agreeing on that file (however
much they differ elsewhere, e.g. after deleting the first route's file)
produce identical responses for it. -/
theorem c6_read_failure_local (environ : String → String) (fs : FS)
    (p f ip : String) (t : Nat)
    (hroute : (p, f) ∈ htmlRoutes)
    (hfail : fs ("templates/" ++ f) = none)
    (p' f' ip' : String) (t' : Nat) (fs₁ fs₂ : FS)
    (hroute' : (p', f') ∈ htmlRoutes) (hne : p' ≠ p)
    (hagree : fs₁ ("templates/" ++ f') = fs₂ ("templates/" ++ f')) :
    ((handleRequest (setupFiber environ) fs initLimiter
        { method := "GET", path := p, ip := ip, query := [], reqHeaders := [] } t).1.status = 404 ∧
     (handleRequest (setupFiber environ) fs initLimiter
        { method := "GET", path := p, ip := ip, query := [], reqHeaders := [] } t).1.body =
       .text "Template not found" ∧
     (handleRequest (setupFiber environ) fs₁ initLimiter
        { method := "GET", path := p', ip := ip', query := [], reqHeaders := [] } t').1 =
       (handleRequest (setupFiber environ) fs₂ initLimiter
        { method := "GET", path := p', ip := ip', query := [], reqHeaders := [] } t').1) := by
  refine ⟨?_, ?_, ?_⟩
  all_goals
    simp only [htmlRoutes, List.mem_cons, List.not_mem_nil, or_false, Prod.mk.injEq] at hroute hroute'
  · rcases hroute with ⟨rfl, rfl⟩ | ⟨rfl, rfl⟩ | ⟨rfl, rfl⟩ | ⟨rfl, rfl⟩
    · rw [handleRequest_initLimiter, setupRoutes_root, htmlHandler_missing _ _ _ hfail]
    · rw [handleRequest_initLimiter, setupRoutes_tutorial, htmlHandler_missing _ _ _ hfail]
    · rw [handleRequest_initLimiter, setupRoutes_selfHosting, htmlHandler_missing _ _ _ hfail]
    · rw [handleRequest_initLimiter, setupRoutes_cliReference, htmlHandler_missing _ _ _ hfail]
  · rcases hroute with ⟨rfl, rfl⟩ | ⟨rfl, rfl⟩ | ⟨rfl, rfl⟩ | ⟨rfl, rfl⟩
    · rw [handleRequest_initLimiter, setupRoutes_root, htmlHandler_missing _ _ _ hfail]
    · rw [handleRequest_initLimiter, setupRoutes_tutorial, htmlHandler_missing _ _ _ hfail]
    · rw [handleRequest_initLimiter, setupRoutes_selfHosting, htmlHandler_missing _ _ _ hfail]
    · rw [handleRequest_initLimiter, setupRoutes_cliReference, htmlHandler_missing _ _ _ hfail]
  · rcases hroute' with ⟨rfl, rfl⟩ | ⟨rfl, rfl⟩ | ⟨rfl, rfl⟩ | ⟨rfl, rfl⟩
    · rw [handleRequest_initLimiter, handleRequest_initLimiter, setupRoutes_root,
        setupRoutes_root, htmlHandler_congr _ _ _ _ hagree]
    · rw [handleRequest_initLimiter, handleRequest_initLimiter, setupRoutes_tutorial,
        setupRoutes_tutorial, htmlHandler_congr _ _ _ _ hagree]
    · rw [handleRequest_initLimiter, handleRequest_initLimiter, setupRoutes_selfHosting,
        setupRoutes_selfHosting, htmlHandler_congr _ _ _ _ hagree]
    · rw [handleRequest_initLimiter, handleRequest_initLimiter, setupRoutes_cliReference,
        setupRoutes_cliReference, htmlHandler_congr _ _ _ _ hagree]

/-- Witness for C6: the self-hosting template is gone, the root route is
untouched by that change. -/
theorem c6_read_failure_local_witness :
    ((handleRequest (setupFiber (fun _ => "")) (fun _ => none) initLimiter
        { method := "GET", path := "/tutorial/self-hosting", ip := "1.2.3.4", query := [], reqHeaders := [] } 0).1.status = 404 ∧
     (handleRequest (setupFiber (fun _ => "")) (fun _ => none) initLimiter
        { method := "GET", path := "/tutorial/self-hosting", ip := "1.2.3.4", query := [], reqHeaders := [] } 0).1.body =
       .text "Template not found" ∧
     (handleRequest (setupFiber (fun _ => ""))
        (fun q => if q = "templates/index.html" then some "<html>OK</html>" else none) initLimiter
        { method := "GET", path := "/", ip := "5.6.7.8", query := [], reqHeaders := [] } 1).1 =
       (handleRequest (setupFiber (fun _ => ""))
        (fun q => if q = "templates/index.html" then some "<html>OK</html>" else some "junk") initLimiter
        { method := "GET", path := "/", ip := "5.6.7.8", query := [], reqHeaders := [] } 1).1) :=
  c6_read_failure_local (fun _ => "") (fun _ => none)
    "/tutorial/self-hosting" "tutorial-self-hosting.html" "1.2.3.4" 0
    (by decide) rfl
    "/" "index.html" "5.6.7.8" 1
    (fun q => if q = "templates/index.html" then some "<html>OK</html>" else none)
    (fun q => if q = "templates/index.html" then some "<html>OK</html>" else some "junk")
    (by decide) (by decide) (by decide)

/-! ## C9 -/

/-- C9: every page and health route is registered for `GET` only; a
request with any other method — any path, including the configured
ones, and in particular `POST /` — matches no route and is answered by
the catch-all with status 404 and the not-found document (or its plain
fallback when the document is unreadable). -/
theorem c9_non_get_is_404 (environ : String → String) (fs : FS) (req : Request) (t : Nat)
    (hpath : req.path ∈ routePaths) (hm : req.method ≠ "GET") :
    ((handleRequest (setupFiber environ) fs initLimiter req t).1.status = 404 ∧
     (handleRequest (setupFiber environ) fs initLimiter req t).1.body =
       .text ((fs "templates/404.html").getD "404 - Page Not Found")) := by
  rw [handleRequest_initLimiter, setupRoutes_non_get _ _ _ _ hm]
  cases h : fs "templates/404.html" with
  | none =>
    rw [notFoundHandler_missing fs _ h]
    exact ⟨rfl, rfl⟩
  | some c =>
    rw [notFoundHandler_ok fs _ c h]
    exact ⟨rfl, rfl⟩

/-- Witness for C9: a `POST /` request gets the not-found document. -/
theorem c9_non_get_is_404_witness :
    ((handleRequest (setupFiber (fun _ => ""))
        (fun q => if q = "templates/404.html" then some "<html>lost</html>" else none) initLimiter
        { method := "POST", path := "/", ip := "9.9.9.9", query := [], reqHeaders := [] } 0).1.status = 404 ∧
     (handleRequest (setupFiber (fun _ => ""))
        (fun q => if q = "templates/404.html" then some "<html>lost</html>" else none) initLimiter
        { method := "POST", path := "/", ip := "9.9.9.9", query := [], reqHeaders := [] } 0).1.body =
       .text "<html>lost</html>") :=
  c9_non_get_is_404 (fun _ => "")
    (fun q => if q = "templates/404.html" then some "<html>lost</html>" else none)
    { method := "POST", path := "/", ip := "9.9.9.9", query := [], reqHeaders := [] } 0
    (by decide) (by decide)

/-! ## C4: limiter step lemmas -/

theorem limiterStep_fresh (st : LimiterState) (ip : String) (t : Nat)
    (hst : st ip = none) :
    limiterStep st ip t = (true, fun k => if k = ip then some ⟨1, t + 60⟩ else st k) := by
  unfold limiterStep
  rw [hst]

theorem limiterStep_in_window (st : LimiterState) (ip : String) (t ex h₀ : Nat)
    (hst : st ip = some ⟨h₀, ex⟩) (ht : t < ex) :
    limiterStep st ip t =
      (decide (h₀ + 1 ≤ 120), fun k => if k = ip then some ⟨h₀ + 1, ex⟩ else st k) := by
  unfold limiterStep
  rw [hst]
  simp [ht]

theorem limiterStep_expired (st : LimiterState) (ip : String) (t ex h₀ : Nat)
    (hst : st ip = some ⟨h₀, ex⟩) (ht : ¬ t < ex) :
    limiterStep st ip t = (true, fun k => if k = ip then some ⟨1, t + 60⟩ else st k) := by
  unfold limiterStep
  rw [hst]
  simp [ht]

theorem handleRequest_snd (cfg : AppConfig) (fs : FS) (st : LimiterState)
    (req : Request) (t : Nat) :
    (handleRequest cfg fs st req t).2 = (limiterStep st req.ip t).2 := by
  unfold handleRequest
  rcases h : limiterStep st req.ip t with ⟨a, st'⟩
  cases a <;> simp [h]

theorem handleRequest_fst_blocked (cfg : AppConfig) (fs : FS) (st : LimiterState)
    (req : Request) (t : Nat) (h : (limiterStep st req.ip t).1 = false) :
    (handleRequest cfg fs st req t).1 = limitReachedResponse (securityHeaders []) := by
  unfold handleRequest
  rcases hl : limiterStep st req.ip t with ⟨a, st'⟩
  rw [hl] at h
  simp only at h
  subst h
  simp [hl]

theorem handleRequest_fst_allowed (cfg : AppConfig) (fs : FS) (st : LimiterState)
    (req : Request) (t : Nat) (h : (limiterStep st req.ip t).1 = true) :
    (handleRequest cfg fs st req t).1 = setupRoutes cfg fs (securityHeaders []) req := by
  unfold handleRequest
  rcases hl : limiterStep st req.ip t with ⟨a, st'⟩
  rw [hl] at h
  simp only at h
  subst h
  simp [hl]

theorem runRequests_cons_snd (cfg : AppConfig) (fs : FS) (st : LimiterState)
    (req : Request) (t : Nat) (rest : List (Request × Nat)) :
    (runRequests cfg fs st ((req, t) :: rest)).2 =
      (runRequests cfg fs (handleRequest cfg fs st req t).2 rest).2 := by
  simp only [runRequests]

/-- Running any batch of requests from key `ip`, with every timestamp
inside the key's current window, adds exactly one hit per request to
that key's counter and leaves the window expiry untouched (refused
requests are counted too, as the fixed-window limiter does). -/
theorem runRequests_state (cfg : AppConfig) (fs : FS) (ip : String) (ex : Nat) :
    ∀ (reqs : List (Request × Nat)) (st : LimiterState) (h₀ : Nat),
      st ip = some ⟨h₀, ex⟩ →
      (∀ r ∈ reqs, r.1.ip = ip ∧ r.2 < ex) →
      (runRequests cfg fs st reqs).2 ip = some ⟨h₀ + reqs.length, ex⟩ := by
  intro reqs
  induction reqs with
  | nil =>
    intro st h₀ hst _
    simpa [runRequests] using hst
  | cons r rest ih =>
    intro st h₀ hst hall
    obtain ⟨req, t⟩ := r
    obtain ⟨hip, ht⟩ := hall (req, t) (List.mem_cons_self _ _)
    simp only at hip ht
    have hst' : (handleRequest cfg fs st req t).2 ip = some ⟨h₀ + 1, ex⟩ := by
      rw [handleRequest_snd, hip, limiterStep_in_window st ip t ex h₀ hst ht]
      simp
    have hrest := ih (handleRequest cfg fs st req t).2 (h₀ + 1) hst'
      (fun r' hr' => hall r' (List.mem_cons_of_mem _ hr'))
    rw [runRequests_cons_snd, hrest]
    simp only [List.length_cons]
    congr 2
    omega

/-- C4: the limiter is keyed by client IP with a 120-request budget per
60-second window. After a client has issued 120 requests inside one
window (one opening the window at `t0`, then 119 more before `t0+60`),
its counter stands at 120; the 121st request inside the window is
answered with status 429 ("too many requests") and the exact JSON body
`{"error": "Rate limit exceeded"}`; and a request issued once the
window has expired (at or after `t0+60`) is served normally — a
`GET /health` then returns status 200. -/
theorem c4_rate_limiter (environ : String → String) (fs : FS) (ip : String) (t0 : Nat)
    (first : Request) (hfip : first.ip = ip)
    (mid : List (Request × Nat)) (hmidlen : mid.length = 119)
    (hmid : ∀ r ∈ mid, r.1.ip = ip ∧ r.2 < t0 + 60)
    (lastReq : Request) (hlip : lastReq.ip = ip) (tlast : Nat) (hlast : tlast < t0 + 60)
    (t' : Nat) (ht' : t0 + 60 ≤ t') :
    ((runRequests (setupFiber environ) fs initLimiter ((first, t0) :: mid)).2 ip =
      some ⟨120, t0 + 60⟩ ∧
     (handleRequest (setupFiber environ) fs
        (runRequests (setupFiber environ) fs initLimiter ((first, t0) :: mid)).2
        lastReq tlast).1 =
      { status := 429,
        headers := setHeader (securityHeaders []) "Content-Type" "application/json",
        body := .json [("error", "Rate limit exceeded")] } ∧
     (handleRequest (setupFiber environ) fs
        (handleRequest (setupFiber environ) fs
          (runRequests (setupFiber environ) fs initLimiter ((first, t0) :: mid)).2
          lastReq tlast).2
        { method := "GET", path := "/health", ip := ip, query := [], reqHeaders := [] }
        t').1.status = 200) := by
  have h1 : (handleRequest (setupFiber environ) fs initLimiter first t0).2 ip =
      some ⟨1, t0 + 60⟩ := by
    rw [handleRequest_snd, hfip, limiterStep_fresh initLimiter ip t0 rfl]
    simp
  have hAfter : (runRequests (setupFiber environ) fs initLimiter ((first, t0) :: mid)).2 ip =
      some ⟨120, t0 + 60⟩ := by
    rw [runRequests_cons_snd]
    have := runRequests_state (setupFiber environ) fs ip (t0 + 60) mid _ 1 h1 hmid
    rw [hmidlen] at this
    exact this
  have hblocked : (limiterStep
      (runRequests (setupFiber environ) fs initLimiter ((first, t0) :: mid)).2
      lastReq.ip tlast).1 = false := by
    rw [hlip, limiterStep_in_window _ ip tlast (t0 + 60) 120 hAfter hlast]
    rfl
  have hstL : (handleRequest (setupFiber environ) fs
      (runRequests (setupFiber environ) fs initLimiter ((first, t0) :: mid)).2
      lastReq tlast).2 ip = some ⟨121, t0 + 60⟩ := by
    rw [handleRequest_snd, hlip, limiterStep_in_window _ ip tlast (t0 + 60) 120 hAfter hlast]
    simp
  refine ⟨hAfter, ?_, ?_⟩
  · rw [handleRequest_fst_blocked _ _ _ _ _ hblocked]
    rfl
  · have hallow : (limiterStep (handleRequest (setupFiber environ) fs
        (runRequests (setupFiber environ) fs initLimiter ((first, t0) :: mid)).2
        lastReq tlast).2 ip t').1 = true := by
      rw [limiterStep_expired _ ip t' (t0 + 60) 121 hstL (by omega)]
    rw [handleRequest_fst_allowed _ _ _ _ _ hallow, setupRoutes_health]
    rfl

/-- Witness for C4: 121 `/health` requests from one IP at time 0 — the
121st is refused with the JSON error — then one more at time 60, which
succeeds. -/
theorem c4_rate_limiter_witness :
    ((runRequests (setupFiber (fun _ => "")) (fun _ => none) initLimiter
        (({ method := "GET", path := "/health", ip := "1.2.3.4", query := [], reqHeaders := [] }, 0) ::
          List.replicate 119
            ({ method := "GET", path := "/health", ip := "1.2.3.4", query := [], reqHeaders := [] }, 0))).2
        "1.2.3.4" = some ⟨120, 0 + 60⟩ ∧
     (handleRequest (setupFiber (fun _ => "")) (fun _ => none)
        (runRequests (setupFiber (fun _ => "")) (fun _ => none) initLimiter
          (({ method := "GET", path := "/health", ip := "1.2.3.4", query := [], reqHeaders := [] }, 0) ::
            List.replicate 119
              ({ method := "GET", path := "/health", ip := "1.2.3.4", query := [], reqHeaders := [] }, 0))).2
        { method := "GET", path := "/health", ip := "1.2.3.4", query := [], reqHeaders := [] } 0).1 =
      { status := 429,
        headers := setHeader (securityHeaders []) "Content-Type" "application/json",
        body := .json [("error", "Rate limit exceeded")] } ∧
     (handleRequest (setupFiber (fun _ => "")) (fun _ => none)
        (handleRequest (setupFiber (fun _ => "")) (fun _ => none)
          (runRequests (setupFiber (fun _ => "")) (fun _ => none) initLimiter
            (({ method := "GET", path := "/health", ip := "1.2.3.4", query := [], reqHeaders := [] }, 0) ::
              List.replicate 119
                ({ method := "GET", path := "/health", ip := "1.2.3.4", query := [], reqHeaders := [] }, 0))).2
          { method := "GET", path := "/health", ip := "1.2.3.4", query := [], reqHeaders := [] } 0).2
        { method := "GET", path := "/health", ip := "1.2.3.4", query := [], reqHeaders := [] }
        60).1.status = 200) :=
  c4_rate_limiter (fun _ => "") (fun _ => none) "1.2.3.4" 0
    { method := "GET", path := "/health", ip := "1.2.3.4", query := [], reqHeaders := [] } rfl
    (List.replicate 119
      ({ method := "GET", path := "/health", ip := "1.2.3.4", query := [], reqHeaders := [] }, 0))
    (by simp)
    (fun r hr => by
      rw [List.eq_of_mem_replicate hr]
      exact ⟨rfl, by decide⟩)
    { method := "GET", path := "/health", ip := "1.2.3.4", query := [], reqHeaders := [] } rfl
    0 (by decide) 60 (by decide)

end GoCliNotesWeb
